import Mathlib

/-
Verification of the ROI computation and backtesting core of the
real-estate-app repository.

The embedding models Python floats as exact rationals (ℚ).  Division is
the total division of ℚ (x / 0 = 0); every place where the Python source
can raise ZeroDivisionError on a degenerate input is pointed out in the
doc comment of the embedded definition.  Python `float('inf')` and
`float('nan')` sentinels are modelled by dedicated inductive wrappers
(`DscrVal`, `CocVal`) so that the comparison and `math.isnan` logic of the
source is mirrored exactly.
-/

/-- Python `int(x)` applied to a float: truncation toward zero.
Lean's `Int` division also truncates toward zero, so `num / den` is
exactly Python's `int()` on a rational value. -/
def pyInt (q : ℚ) : ℤ := q.num / (q.den : ℤ)

/-- A Python `Dict[str, float]` as an association list (the repository's
input mappings never carry duplicate keys). -/
abbrev PDict := List (String × ℚ)

/-- Python `d.get(key, default)`: the value of the first (only) binding
of the key, or the default when the key is absent. -/
def dget (d : PDict) (k : String) (default : ℚ) : ℚ :=
  match d with
  | [] => default
  | (k', v) :: rest => if k' = k then v else dget rest k default

/-- Python `d[key] = v`: overwrite an existing key in place, otherwise
append the new key (Python dicts keep insertion order). -/
def dset (d : PDict) (k : String) (v : ℚ) : PDict :=
  if d.any (fun p => p.1 = k) then
    d.map (fun p => if p.1 = k then (k, v) else p)
  else
    d ++ [(k, v)]

/-- The value returned by a DSCR computation: either an ordinary float or
the `float('inf')` sentinel returned by
`ROIEngine.debt_service_coverage_ratio` when the annual mortgage payment
is zero. -/
inductive DscrVal where
  | inf : DscrVal
  | fin : ℚ → DscrVal
deriving DecidableEq

/-- Python comparison `dscr < m` on a possibly-infinite DSCR value:
`float('inf') < m` is `False` for every finite `m`. -/
def dscrLt (d : DscrVal) (m : ℚ) : Bool :=
  match d with
  | .inf => false
  | .fin q => decide (q < m)

/-- A cash-on-cash value as seen by the Interpreter, which probes it with
`math.isnan`: either the `float('nan')` sentinel or a finite value. -/
inductive CocVal where
  | nan : CocVal
  | fin : ℚ → CocVal
deriving DecidableEq

/-- The `local_refs` calibration mapping.  The source passes it as a dict
with exactly these five keys; we model it as a record (every `.get` on it
hits the key, so the scattered in-code fallback defaults are dead). -/
structure LocalRefs where
  cap_low : ℚ
  cap_high : ℚ
  coc_target : ℚ
  dscr_min : ℚ
  discount_rate : ℚ
deriving DecidableEq

/-- The dict both engines substitute when the caller passes
`local_refs=None`:
`{'cap_low': 0.03, 'cap_high': 0.08, 'coc_target': 0.08, 'dscr_min': 1.2,
'discount_rate': 0.10}`. -/
def defaultLocalRefs : LocalRefs :=
  ⟨3/100, 8/100, 8/100, 6/5, 1/10⟩

/-- The qualitative findings produced by `interpret_results`.  Each
constructor stands for one of the human-readable strings of the source;
the rational arguments are the numbers interpolated into the f-string
(the formatting itself is presentation and is not modelled). -/
inductive Note where
  | capNotCalculated : Note
  | capBelowLow : ℚ → ℚ → Note
  | capAboveHigh : ℚ → ℚ → Note
  | capWithin : ℚ → Note
  | cocNotCalculated : Note
  | cocBelowTarget : ℚ → ℚ → Note
  | cocMeetsTarget : ℚ → Note
  | dscrBelowMin : DscrVal → ℚ → Note
  | dscrAdequate : DscrVal → Note
deriving DecidableEq

/-- Python `abs(x)` on an exact rational, written out so that kernel
evaluation of the embedded functions reduces. -/
def pyAbsQ (q : ℚ) : ℚ := if q < 0 then -q else q

/-- Helper for `sum(cf / ((1.0 + discount_rate) ** i) for i, cf in
enumerate(cash_flows))`: the running index of `enumerate` is made
explicit. -/
def npvAux (r : ℚ) : ℕ → List ℚ → ℚ
  | _, [] => 0
  | t, cf :: rest => cf / (1 + r) ^ t + npvAux r (t + 1) rest

namespace PyRoi

/- Embedding of backend/roi_engine.py (the module-level "simple ROI
calculator functions"). -/

/-- Embeds `effective_gross_income`: `gross_rent_annual * (1.0 - vacancy_rate)`. -/
def effective_gross_income (gross_rent_annual vacancy_rate : ℚ) : ℚ :=
  gross_rent_annual * (1 - vacancy_rate)

/-- Embeds `noi`: `egi - operating_expenses`. -/
def noi (egi operating_expenses : ℚ) : ℚ :=
  egi - operating_expenses

/-- Embeds `cap_rate`: `0.0 if purchase_price == 0 else noi_value / purchase_price`. -/
def cap_rate (noi_value purchase_price : ℚ) : ℚ :=
  if purchase_price = 0 then 0 else noi_value / purchase_price

/-- Embeds `gross_yield`: same zero guard as `cap_rate`. -/
def gross_yield (gross_rent_annual purchase_price : ℚ) : ℚ :=
  if purchase_price = 0 then 0 else gross_rent_annual / purchase_price

/-- Embeds `pre_tax_cash_flow`: `noi_value - annual_mortgage_payment`. -/
def pre_tax_cash_flow (noi_value annual_mortgage_payment : ℚ) : ℚ :=
  noi_value - annual_mortgage_payment

/-- Embeds `cash_on_cash`: `0.0 if equity == 0 else pre_tax_cf / equity`. -/
def cash_on_cash (pre_tax_cf equity : ℚ) : ℚ :=
  if equity = 0 then 0 else pre_tax_cf / equity

/-- Embeds `dscr` of backend/roi_engine.py:
`0.0 if annual_mortgage_payment == 0 else noi_value / annual_mortgage_payment`.
Note: this duplicate returns 0.0 for zero debt, not the infinite
sentinel of `ROIEngine.debt_service_coverage_ratio`. -/
def dscr (noi_value annual_mortgage_payment : ℚ) : ℚ :=
  if annual_mortgage_payment = 0 then 0 else noi_value / annual_mortgage_payment

/-- Embeds `npv(cash_flows, discount_rate)`: the generator sum over
`enumerate(cash_flows)`, so index 0 is divided by `(1+r)^0 = 1`.
The source raises ZeroDivisionError at `discount_rate == -1` on a series
of length ≥ 2; ℚ-division then yields 0 instead. -/
def npv (cash_flows : List ℚ) (discount_rate : ℚ) : ℚ :=
  npvAux discount_rate 0 cash_flows

end PyRoi

namespace RoiCalc

/- Embedding of backend/roi_calculator/roi_engine.py (`class ROIEngine`).
The numeric methods take no engine state (the class only keeps an unused
`metrics_cache`), so they are plain functions here. -/

/-- Embeds `ROIEngine.effective_gross_income`. -/
def effective_gross_income (gross_rent_annual vacancy_rate : ℚ) : ℚ :=
  gross_rent_annual * (1 - vacancy_rate)

/-- Embeds `ROIEngine.net_operating_income`. -/
def net_operating_income (egi operating_expenses : ℚ) : ℚ :=
  egi - operating_expenses

/-- Embeds `ROIEngine.cap_rate` with its `purchase_price == 0` guard. -/
def cap_rate (noi purchase_price : ℚ) : ℚ :=
  if purchase_price = 0 then 0 else noi / purchase_price

/-- Embeds `ROIEngine.gross_yield` with its `purchase_price == 0` guard. -/
def gross_yield (gross_rent_annual purchase_price : ℚ) : ℚ :=
  if purchase_price = 0 then 0 else gross_rent_annual / purchase_price

/-- Embeds `ROIEngine.pre_tax_cash_flow`. -/
def pre_tax_cash_flow (noi annual_mortgage_payment : ℚ) : ℚ :=
  noi - annual_mortgage_payment

/-- Embeds `ROIEngine.cash_on_cash_return` with its `equity == 0` guard. -/
def cash_on_cash_return (pre_tax_cash_flow equity : ℚ) : ℚ :=
  if equity = 0 then 0 else pre_tax_cash_flow / equity

/-- Embeds `ROIEngine.debt_service_coverage_ratio`: returns `float('inf')` when
`annual_mortgage_payment == 0`, else `noi / annual_mortgage_payment`. -/
def debt_service_coverage_ratio (noi annual_mortgage_payment : ℚ) : DscrVal :=
  if annual_mortgage_payment = 0 then .inf else .fin (noi / annual_mortgage_payment)

/-- Embeds `ROIEngine.net_present_value_simple`: textually the same generator
sum as the module-level `npv` of backend/roi_engine.py. -/
def net_present_value_simple (cash_flows : List ℚ) (discount_rate : ℚ) : ℚ :=
  npvAux discount_rate 0 cash_flows

/-- The NPV accumulated inside `ROIEngine.internal_rate_of_return`'s loop:
`npv = -initial_investment; for t, cf in enumerate(cash_flows, 1): npv +=
cf / (1 + rate) ** t`.  `npvAux` is started at index 1 to mirror
`enumerate(cash_flows, 1)`. -/
def nrNpv (cash_flows : List ℚ) (initial_investment rate : ℚ) : ℚ :=
  -initial_investment + npvAux rate 1 cash_flows

/-- The analytic derivative accumulated inside the same loop:
`npv_derivative -= t * cf / (discount_factor * (1 + rate))`. -/
def nrDeriv (rate : ℚ) : ℕ → List ℚ → ℚ
  | _, [] => 0
  | t, cf :: rest =>
      -((t : ℚ) * cf / ((1 + rate) ^ t * (1 + rate))) + nrDeriv rate (t + 1) rest

/-- The `for _ in range(max_iterations)` body of
`ROIEngine.internal_rate_of_return`.  Both `break` statements fall
through to `return rate`, i.e. they return the current (pre-update)
iterate; when the fuel runs out the last iterate is returned as well.
No branch of the source produces `float('nan')`. -/
def irrLoop (cash_flows : List ℚ) (initial_investment : ℚ) : ℕ → ℚ → ℚ
  | 0, rate => rate
  | n + 1, rate =>
      let npv := nrNpv cash_flows initial_investment rate
      let npv_derivative := nrDeriv rate 1 cash_flows
      if pyAbsQ npv_derivative < 1 / 10000000000 then rate
      else
        let new_rate := rate - npv / npv_derivative
        if pyAbsQ (new_rate - rate) < 1 / 1000000 then rate
        else irrLoop cash_flows initial_investment n new_rate

/-- Embeds `ROIEngine.internal_rate_of_return(cash_flows, initial_investment,
max_iterations=100)`: Newton-Raphson from the initial guess 0.1.  Returns
`0.0` for an empty series, and otherwise whatever iterate the loop ends
on - including when it aborts on a vanishing derivative or exhausts the
iteration budget without satisfying `|new_rate - rate| < 1e-6`. -/
def internal_rate_of_return (cash_flows : List ℚ) (initial_investment : ℚ)
    (max_iterations : ℕ) : ℚ :=
  if cash_flows = [] then 0
  else irrLoop cash_flows initial_investment max_iterations (1 / 10)

/-- Embeds `ROIEngine.calculate_loan_payment`.  The `years` argument is declared
`int` in the source and flows in from the inputs mapping through
Python's `int()`-free `.get`, so we truncate it here; the `(1 +
monthly_rate) ** num_payments` power is an integer power (ℚ-zpow).  The
source raises ZeroDivisionError when `annual_rate == 0 ∧ years == 0` or
when `(1 + monthly_rate) ** num_payments == 1`; ℚ-division yields 0
there. -/
def calculate_loan_payment (loan_amount annual_rate : ℚ) (years : ℤ) : ℚ :=
  if annual_rate = 0 then loan_amount / ((years : ℚ) * 12)
  else
    let monthly_rate := annual_rate / 12
    let num_payments := years * 12
    loan_amount * (monthly_rate * (1 + monthly_rate) ^ num_payments) /
      ((1 + monthly_rate) ^ num_payments - 1)

/-- Embeds `ROIEngine.calculate_annual_mortgage_payment`: twelve monthly
payments. -/
def calculate_annual_mortgage_payment (loan_amount annual_rate : ℚ) (years : ℤ) : ℚ :=
  calculate_loan_payment loan_amount annual_rate years * 12

/-- Embeds `ROIEngine.calculate_property_value_appreciation`:
`current_value * (1 + annual_appreciation) ** years`. -/
def calculate_property_value_appreciation (current_value annual_appreciation : ℚ)
    (years : ℤ) : ℚ :=
  current_value * (1 + annual_appreciation) ^ years

/-- Embeds `ROIEngine.calculate_total_return`:
`(final_value + total_cash_flow - initial_investment) / initial_investment`.
The source raises ZeroDivisionError when `initial_investment == 0`;
ℚ-division yields 0 there. -/
def calculate_total_return (initial_investment final_value total_cash_flow : ℚ) : ℚ :=
  (final_value + total_cash_flow - initial_investment) / initial_investment

/-- Embeds `ROIEngine.interpret_results`: one note per metric, in cap-rate,
cash-on-cash, DSCR order.  The `local_refs.get(..., fallback)` defaults
inside the body are dead because the engine always passes a complete
refs mapping (the `None` parameter default is replaced before this point). -/
def interpret_results (cap_rate : ℚ) (cash_on_cash : CocVal) (dscr : DscrVal)
    (local_refs : LocalRefs) : List Note :=
  let n1 : Note :=
    if cap_rate ≤ 0 then .capNotCalculated
    else if cap_rate < local_refs.cap_low then .capBelowLow cap_rate local_refs.cap_low
    else if cap_rate > local_refs.cap_high then .capAboveHigh cap_rate local_refs.cap_high
    else .capWithin cap_rate
  let n2 : Note :=
    match cash_on_cash with
    | .nan => .cocNotCalculated
    | .fin c =>
        if c < local_refs.coc_target then .cocBelowTarget c local_refs.coc_target
        else .cocMeetsTarget c
  let n3 : Note :=
    if dscrLt dscr local_refs.dscr_min then .dscrBelowMin dscr local_refs.dscr_min
    else .dscrAdequate dscr
  [n1, n2, n3]

end RoiCalc

/-- Python `cash_flows[-1] += tv` on a non-empty list: add `x` to the
last element (on the empty list the source would raise IndexError; both
call sites construct the list with a cons, so it is never empty). -/
def addToLast (x : ℚ) : List ℚ → List ℚ
  | [] => []
  | [a] => [a + x]
  | a :: b :: rest => a :: addToLast x (b :: rest)

namespace RoiCalc

/-- The mapping returned by `ROIEngine.compute_roi_from_inputs`.  Three
entries of the source dict are not modelled as fields: `irr` (delegated
to the external numpy_financial library, or `float('nan')` when that
library is unavailable), `annualized_return` (a fractional float power
`(1 + total_return) ** (1 / hold_years) - 1`, irrational in general) and
`calculated_at` (a wall-clock timestamp).  None of them is read by any
code under verification.  The full key set of the dict is recorded
separately in `roiResultKeys`. -/
structure ROIResult where
  egi : ℚ
  noi : ℚ
  cap_rate : ℚ
  gross_yield : ℚ
  pre_tax_cash_flow : ℚ
  cash_on_cash : ℚ
  dscr : DscrVal
  npv : ℚ
  explanation : List Note
  cash_flows : List ℚ
  terminal_value : ℚ
  total_return : ℚ
  projected_value : ℚ
  total_cash_flow : ℚ
  inputs : PDict
deriving DecidableEq

/-- The exact key set of the dict literal returned by
`ROIEngine.compute_roi_from_inputs` (in source order).  Note that there
is no `'metrics'` and no `'interpretation'` key. -/
def roiResultKeys : List String :=
  ["egi", "noi", "cap_rate", "gross_yield", "pre_tax_cash_flow",
   "cash_on_cash", "dscr", "npv", "irr", "explanation", "cash_flows",
   "terminal_value", "total_return", "annualized_return",
   "projected_value", "total_cash_flow", "inputs", "calculated_at"]

/-- Python subscript `roi_result[k]` on the dict returned by
`compute_roi_from_inputs`: raises KeyError when `k` is not among its
keys.  Only the success/KeyError outcome matters to the callers under
verification, so the success value is `Unit`. -/
def roiResultGetItem (k : String) : Except String Unit :=
  if roiResultKeys.contains k then .ok () else .error ("KeyError: " ++ k)

/-- Embeds `ROIEngine.compute_roi_from_inputs(inputs, local_refs=None)`.  A
direct transcription of the body: input extraction with `.get` defaults,
derivation of equity / loan amount / mortgage payment, the metric
primitives, the multi-year cash-flow construction with the terminal
value added onto the final entry, NPV, total return and the
interpretation.  `hold_years` and `loan_term_years` pass through
Python's `int()` truncation (`pyInt`); a negative `hold_years` makes
`range(hold_years)` empty, which `Int.toNat` mirrors. -/
def compute_roi_from_inputs (inputs : PDict) (local_refs : Option LocalRefs) : ROIResult :=
  let refs := local_refs.getD defaultLocalRefs
  let purchase_price := dget inputs "purchase_price" 0
  let gross_rent_annual := dget inputs "gross_rent_annual" 0
  let vacancy_rate := dget inputs "vacancy_rate" (1/10)
  let operating_expenses := dget inputs "operating_expenses" 0
  let annual_mortgage_payment := dget inputs "annual_mortgage_payment" 0
  let equity := dget inputs "equity" (purchase_price * (20/100))
  let down_payment := dget inputs "down_payment" 0
  let loan_amount := dget inputs "loan_amount" 0
  let interest_rate := dget inputs "interest_rate" 0
  let loan_term_years := pyInt (dget inputs "loan_term_years" 30)
  let annual_appreciation := dget inputs "annual_appreciation" (3/100)
  let hold_years := pyInt (dget inputs "hold_years" 5)
  let renovation_cost := dget inputs "renovation_cost" 0
  let discount_rate := dget inputs "discount_rate" refs.discount_rate
  let equity := if equity = 0 ∧ down_payment > 0 then down_payment else equity
  let loan_amount :=
    if loan_amount = 0 ∧ down_payment > 0 then purchase_price - down_payment
    else loan_amount
  let annual_mortgage_payment :=
    if annual_mortgage_payment = 0 ∧ loan_amount > 0 ∧ interest_rate > 0 then
      calculate_annual_mortgage_payment loan_amount interest_rate loan_term_years
    else annual_mortgage_payment
  let egi := effective_gross_income gross_rent_annual vacancy_rate
  let noi := net_operating_income egi operating_expenses
  let cap_rate_v := cap_rate noi purchase_price
  let gross_yield_v := gross_yield gross_rent_annual purchase_price
  let pre_tax_cash_flow_v := pre_tax_cash_flow noi annual_mortgage_payment
  let cash_on_cash := cash_on_cash_return pre_tax_cash_flow_v equity
  let dscr := debt_service_coverage_ratio noi annual_mortgage_payment
  let projected_value :=
    calculate_property_value_appreciation purchase_price annual_appreciation hold_years
  let total_cash_flow := pre_tax_cash_flow_v * (hold_years : ℚ)
  let cash_flows :=
    (-equity - renovation_cost) :: List.replicate hold_years.toNat pre_tax_cash_flow_v
  let terminal_cap := (refs.cap_low + refs.cap_high) / 2
  let terminal_value := if terminal_cap > 0 then noi / terminal_cap else 0
  let cash_flows := addToLast terminal_value cash_flows
  let npv_val := net_present_value_simple cash_flows discount_rate
  let total_return := calculate_total_return equity projected_value total_cash_flow
  let interpretation := interpret_results cap_rate_v (.fin cash_on_cash) dscr refs
  ⟨egi, noi, cap_rate_v, gross_yield_v, pre_tax_cash_flow_v, cash_on_cash, dscr,
   npv_val, interpretation, cash_flows, terminal_value, total_return,
   projected_value, total_cash_flow, inputs⟩

/-- Embeds `ROIEngine.calculate_comprehensive_roi`: delegates to
`compute_roi_from_inputs` with the default local refs. -/
def calculate_comprehensive_roi (property_data : PDict) : ROIResult :=
  compute_roi_from_inputs property_data none

/-- One entry of `ROIEngine.compare_properties`' results list:
`{'property_id': i, 'property_name': ..., 'roi_metrics':
roi_result['metrics'], 'interpretation': roi_result['interpretation']}`.
The name falls back to `f'Property {i+1}'` (a caller-supplied
`property_name` would be a string value, outside the numeric mapping
model; the subscript below raises before the name could matter).  The
`roi_result['metrics']` subscript raises KeyError because the computed
dict has no such key. -/
def mkCompareEntry (i : ℕ) (prop : PDict) : Except String (ℕ × String × ROIResult) := do
  let roi_result := calculate_comprehensive_roi prop
  let property_name := "Property " ++ toString (i + 1)
  let _ ← roiResultGetItem "metrics"
  let _ ← roiResultGetItem "interpretation"
  .ok (i, property_name, roi_result)

/-- The `for i, prop in enumerate(properties)` loop of
`compare_properties`. -/
def comparePropsLoop : ℕ → List PDict → Except String (List (ℕ × String × ROIResult))
  | _, [] => .ok []
  | i, prop :: rest => do
      let entry ← mkCompareEntry i prop
      let others ← comparePropsLoop (i + 1) rest
      .ok (entry :: others)

/-- Embeds `results.sort(key=lambda x: x['roi_metrics']['cash_on_cash'],
reverse=True)`: a stable descending sort (Python's sort is stable; with
the `b ≤ a` relation, mergeSort keeps equal keys in input order). -/
def sortByCocDesc (results : List (ℕ × String × ROIResult)) :
    List (ℕ × String × ROIResult) :=
  results.mergeSort (fun a b => b.2.2.cash_on_cash ≤ a.2.2.cash_on_cash)

/-- Embeds `ROIEngine.compare_properties`: computes the ROI for every property,
sorts by cash-on-cash descending and returns the ranked list together
with its head as `best_property` (`None` for an empty input).  Because
building each entry subscripts the computed dict with the missing
`'metrics'` key, the whole call raises KeyError for every non-empty
input list. -/
def compare_properties (properties : List PDict) :
    Except String (List (ℕ × String × ROIResult) × Option (ℕ × String × ROIResult)) := do
  let results ← comparePropsLoop 0 properties
  let sorted := sortByCocDesc results
  .ok (sorted, sorted.head?)

/-- One row of a sensitivity sweep: `{'value': value, 'cash_on_cash':
..., 'cap_rate': ..., 'npv': ...}`.  The three metric entries come from
`roi_result['metrics'][...]` subscripts whose first step raises
KeyError, so their success type is `Unit`. -/
abbrev SensRow := ℚ × Unit × Unit × Unit

/-- The `for value in values` loop of `ROIEngine.sensitivity_analysis`,
threading the caller's `base_inputs` dict as explicit state.  Each
iteration copies the state (`test_inputs = base_inputs.copy()`), writes
the candidate value into the copy only, recomputes the ROI and reads
`roi_result['metrics']` - which raises KeyError.  The state component of
the result is the final state of the caller's dict. -/
def sensValuesLoop (st : PDict) (var : String) :
    List ℚ → (Except String (List SensRow)) × PDict
  | [] => (.ok [], st)
  | value :: rest =>
      let test_inputs := dset st var value
      let _roi_result := calculate_comprehensive_roi test_inputs
      match roiResultGetItem "metrics" with
      | .error e => (.error e, st)
      | .ok coc =>
          match roiResultGetItem "metrics", roiResultGetItem "metrics" with
          | .error e, _ => (.error e, st)
          | _, .error e => (.error e, st)
          | .ok cr, .ok npv_u =>
              match sensValuesLoop st var rest with
              | (.error e, st') => (.error e, st')
              | (.ok rows, st') => (.ok ((value, coc, cr, npv_u) :: rows), st')

/-- The outer `for variable, values in variable_ranges.items()` loop of
`sensitivity_analysis`, with the same explicit state threading. -/
def sensVarsLoop (st : PDict) :
    List (String × List ℚ) → (Except String (List (String × List SensRow))) × PDict
  | [] => (.ok [], st)
  | (var, values) :: rest =>
      match sensValuesLoop st var values with
      | (.error e, st') => (.error e, st')
      | (.ok rows, st') =>
          match sensVarsLoop st' rest with
          | (.error e, st'') => (.error e, st'')
          | (.ok vars, st'') => (.ok ((var, rows) :: vars), st'')

/-- Embeds `ROIEngine.sensitivity_analysis(base_inputs, variable_ranges)`:
per-variable one-at-a-time sweeps plus a `base_case` recomputation.  The
caller's `base_inputs` dict is threaded as state and returned so that
the absence of mutation is a provable property of the embedding. -/
def sensitivity_analysis (base_inputs : PDict) (variable_ranges : List (String × List ℚ)) :
    (Except String (List (String × List SensRow) × ROIResult)) × PDict :=
  match sensVarsLoop base_inputs variable_ranges with
  | (.error e, st) => (.error e, st)
  | (.ok sweep, st) =>
      let base_case := calculate_comprehensive_roi base_inputs
      (.ok (sweep, base_case), st)

end RoiCalc

namespace PyRoi

/-- Embeds `interpret_results` of backend/roi_engine.py: same banding logic as
the class version, but its `dscr_val` argument is the plain float
produced by this module's `dscr` (never the infinite sentinel).  The
value is wrapped in `DscrVal.fin` only to reuse the shared `Note`
vocabulary. -/
def interpret_results (cap : ℚ) (coc : CocVal) (dscr_val : ℚ)
    (local_refs : LocalRefs) : List Note :=
  let n1 : Note :=
    if cap ≤ 0 then .capNotCalculated
    else if cap < local_refs.cap_low then .capBelowLow cap local_refs.cap_low
    else if cap > local_refs.cap_high then .capAboveHigh cap local_refs.cap_high
    else .capWithin cap
  let n2 : Note :=
    match coc with
    | .nan => .cocNotCalculated
    | .fin c =>
        if c < local_refs.coc_target then .cocBelowTarget c local_refs.coc_target
        else .cocMeetsTarget c
  let n3 : Note :=
    if dscr_val < local_refs.dscr_min then .dscrBelowMin (.fin dscr_val) local_refs.dscr_min
    else .dscrAdequate (.fin dscr_val)
  [n1, n2, n3]

/-- The mapping returned by `compute_roi_from_inputs` of
backend/roi_engine.py.  The `irr` entry (computed by the external
numpy_financial library or a numpy polynomial-roots fallback) is not
modelled as a field; nothing under verification reads it. -/
structure PyROIResult where
  egi : ℚ
  noi : ℚ
  cap_rate : ℚ
  gross_yield : ℚ
  pre_tax_cash_flow : ℚ
  cash_on_cash : ℚ
  dscr : ℚ
  npv : ℚ
  explanation : List Note
  cash_flows : List ℚ
  terminal_value : ℚ
deriving DecidableEq

/-- Embeds `compute_roi_from_inputs(inputs, local_refs=None)` of
backend/roi_engine.py.  Transcription notes: the terminal cap is
`(local_refs.get('cap_low') + local_refs.get('cap_high')) / 2 or 0.05` -
Python's `or` replaces a zero (falsy) midpoint with 0.05 but keeps a
negative midpoint; the terminal value guard is the truthiness test
`if terminal_cap`, i.e. `terminal_cap ≠ 0`, so a negative terminal cap
is divided by.  The NPV is discounted at `local_refs['discount_rate']`
(the inputs mapping is not consulted for a discount rate). -/
def compute_roi_from_inputs (inputs : PDict) (local_refs : Option LocalRefs) : PyROIResult :=
  let refs := local_refs.getD defaultLocalRefs
  let purchase_price := dget inputs "purchase_price" 0
  let gross_rent_annual := dget inputs "gross_rent_annual" 0
  let vacancy_rate := dget inputs "vacancy_rate" (1/10)
  let operating_expenses := dget inputs "operating_expenses" 0
  let annual_mortgage_payment := dget inputs "annual_mortgage_payment" 0
  let equity := dget inputs "equity" (purchase_price * (20/100))
  let hold_years := pyInt (dget inputs "hold_years" 5)
  let renovation_cost := dget inputs "renovation_cost" 0
  let egi_val := effective_gross_income gross_rent_annual vacancy_rate
  let noi_val := noi egi_val operating_expenses
  let cap := cap_rate noi_val purchase_price
  let gross_y := gross_yield gross_rent_annual purchase_price
  let pre_cf := pre_tax_cash_flow noi_val annual_mortgage_payment
  let coc := cash_on_cash pre_cf equity
  let dscr_val := dscr noi_val annual_mortgage_payment
  let cash_flows :=
    (-equity - renovation_cost) :: List.replicate hold_years.toNat pre_cf
  let terminal_cap :=
    let mid := (refs.cap_low + refs.cap_high) / 2
    if mid = 0 then 1/20 else mid
  let tv := if terminal_cap ≠ 0 then noi_val / terminal_cap else 0
  let cash_flows := addToLast tv cash_flows
  let npv_val := npv cash_flows refs.discount_rate
  let explanation := interpret_results cap (.fin coc) dscr_val refs
  ⟨egi_val, noi_val, cap, gross_y, pre_cf, coc, dscr_val, npv_val,
   explanation, cash_flows, tv⟩

end PyRoi

namespace Backtest

/- Embedding of backend/roi_calculator/backtest.py (`class BacktestEngine`).
Dates arrive as "YYYY-MM-DD" strings and are parsed with
`datetime.strptime`; string parsing is a standard-library concern, so a
date is modelled directly as its year/month/day triple. -/

/-- A calendar date (already parsed from its "YYYY-MM-DD" string). -/
structure Date where
  y : ℤ
  m : ℤ
  d : ℤ
deriving DecidableEq

/-- Chronological comparison of dates, as `datetime` comparison does it:
lexicographic on (year, month, day). -/
def dateLe (a b : Date) : Bool :=
  decide (a.y < b.y) ||
    (decide (a.y = b.y) &&
      (decide (a.m < b.m) || (decide (a.m = b.m) && decide (a.d ≤ b.d))))

/-- Day number of a civil date (proleptic Gregorian, epoch 1970-01-01),
the standard era-based algorithm; `datetime` subtraction `.days` is the
difference of these numbers. -/
def daysFromCivil (dt : Date) : ℤ :=
  let y := if dt.m ≤ 2 then dt.y - 1 else dt.y
  let era := (if 0 ≤ y then y else y - 399) / 400
  let yoe := y - era * 400
  let mp := (dt.m + 9) % 12
  let doy := (153 * mp + 2) / 5 + dt.d - 1
  let doe := yoe * 365 + yoe / 4 - yoe / 100 + doy
  era * 146097 + doe - 719468

/-- Embeds `(b - a).days` for two datetimes. -/
def daysBetween (a b : Date) : ℤ :=
  daysFromCivil b - daysFromCivil a

/-- One historical transaction record (`{'transaction_date': ...,
'transaction_type': 'rent' | 'expense', 'amount': ...}`). -/
structure Transaction where
  transaction_date : Date
  transaction_type : String
  amount : ℚ
deriving DecidableEq

/-- Embeds `BacktestEngine._filter_transactions_by_date`: keep the transactions
with `start_date <= trans_date <= end_date`. -/
def filter_transactions_by_date (transactions : List Transaction)
    (start_date end_date : Date) : List Transaction :=
  transactions.filter fun t =>
    dateLe start_date t.transaction_date && dateLe t.transaction_date end_date

/-- Python `round(q, nd)` on an exact value: round-half-to-even
(banker's rounding) at `nd` decimal places. -/
def roundHalfEven (q : ℚ) : ℤ :=
  let f := ⌊q⌋
  let r := q - (f : ℚ)
  if r < 1/2 then f
  else if 1/2 < r then f + 1
  else if f % 2 = 0 then f else f + 1

/-- Python `round(q, nd)`. -/
def pyRound (q : ℚ) (nd : ℕ) : ℚ :=
  (roundHalfEven (q * 10 ^ nd) : ℚ) / 10 ^ nd

/-- Largest element of an integer list (0 for the empty list, which the
callers exclude). -/
def listMax : List ℤ → ℤ
  | [] => 0
  | x :: xs => xs.foldl max x

/-- Smallest element of an integer list (0 for the empty list). -/
def listMin : List ℤ → ℤ
  | [] => 0
  | x :: xs => xs.foldl min x

/-- The metric fields of the dict `_calculate_base_metrics` returns for a
non-empty transaction list (each already passed through `round`). -/
structure BaseStats where
  total_income : ℚ
  total_expenses : ℚ
  net_cash_flow : ℚ
  monthly_income : ℚ
  monthly_expenses : ℚ
  monthly_cash_flow : ℚ
  occupancy_rate : ℚ
  transaction_count : ℕ
  period_months : ℚ
deriving DecidableEq

/-- The result of `_calculate_base_metrics`: either the
`{"error": "No transactions found for the specified period"}` marker
dict (for an empty filtered list) or the metrics dict.  The marker dict
carries no aggregate keys at all. -/
inductive BaseResults where
  | err : String → BaseResults
  | stats : BaseStats → BaseResults
deriving DecidableEq

/-- Python `base_results.get(k, 0)` as used by `_generate_insights`: the
marker dict has none of the metric keys, so every lookup on it falls
back to the default. -/
def baseGet (b : BaseResults) (k : String) (default : ℚ) : ℚ :=
  match b with
  | .err _ => default
  | .stats s =>
      if k = "monthly_cash_flow" then s.monthly_cash_flow
      else if k = "occupancy_rate" then s.occupancy_rate
      else if k = "monthly_income" then s.monthly_income
      else if k = "monthly_expenses" then s.monthly_expenses
      else default

/-- Embeds `BacktestEngine._calculate_base_metrics`: totals by transaction type
(expenses as the absolute value of the expense sum), monthly averages
over `days_span / 30.44` months (guarded against a non-positive span),
and the occupancy estimate against the property's expected monthly rent
(guarded against a non-positive expected rent).  30.44 is embedded as
761/25; the float literal is not exactly representable in binary either
way and the difference is immaterial to every comparison under
verification. -/
def calculate_base_metrics (property_data : PDict)
    (transactions : List Transaction) : BaseResults :=
  match transactions with
  | [] => .err "No transactions found for the specified period"
  | t0 :: rest =>
      let df := t0 :: rest
      let total_income :=
        ((df.filter fun t => t.transaction_type = "rent").map (·.amount)).sum
      let total_expenses :=
        pyAbsQ ((df.filter fun t => t.transaction_type = "expense").map (·.amount)).sum
      let net_cash_flow := total_income - total_expenses
      let ords := df.map fun t => daysFromCivil t.transaction_date
      let months := ((listMax ords - listMin ords : ℤ) : ℚ) / (761/25)
      let monthly_income := if months > 0 then total_income / months else 0
      let monthly_expenses := if months > 0 then total_expenses / months else 0
      let monthly_cash_flow := monthly_income - monthly_expenses
      let expected_rent := dget property_data "gross_rent_annual" 0 / 12
      let occupancy_rate := if expected_rent > 0 then monthly_income / expected_rent else 0
      .stats ⟨pyRound total_income 2, pyRound total_expenses 2,
        pyRound net_cash_flow 2, pyRound monthly_income 2,
        pyRound monthly_expenses 2, pyRound monthly_cash_flow 2,
        pyRound occupancy_rate 4, df.length, pyRound months 1⟩

/-- A scenario parameter value: either a plain number or a
percentage-suffixed string such as "+10%" (modelled by the parsed
number, e.g. `pct 10`). -/
inductive ScenVal where
  | num : ℚ → ScenVal
  | pct : ℚ → ScenVal
deriving DecidableEq

/-- A named scenario: `{'name': ..., 'parameters': {...}}`; a missing
name falls back to "Unnamed Scenario" at use. -/
structure Scenario where
  name : Option String
  parameters : List (String × ScenVal)

/-- One iteration of the `for param, value in scenario_params.items()`
loop of `_run_scenario_analysis`, acting on the scenario's working copy
of the property dict.  Parameters absent from the dict are skipped
(`if param in modified_property`); `gross_rent_annual` and
`operating_expenses` accept a percentage adjustment or an outright
replacement; `vacancy_rate` is replaced outright (the source would store
a raw percentage string there, but the value is never read again, so a
`pct p` is recorded as its number). -/
def applyParam (modified : PDict) (param : String) (value : ScenVal) : PDict :=
  if modified.any (fun p => p.1 = param) then
    if param = "gross_rent_annual" then
      match value with
      | .pct p => dset modified param (dget modified param 0 * (1 + p / 100))
      | .num v => dset modified param v
    else if param = "vacancy_rate" then
      match value with
      | .pct p => dset modified param p
      | .num v => dset modified param v
    else if param = "operating_expenses" then
      match value with
      | .pct p => dset modified param (dget modified param 0 * (1 + p / 100))
      | .num v => dset modified param v
    else modified
  else modified

/-- The whole parameter loop over a scenario's working copy. -/
def applyParams (modified : PDict) : List (String × ScenVal) → PDict
  | [] => modified
  | (param, value) :: rest => applyParams (applyParam modified param value) rest

/-- The rent multiplier of `_calculate_scenario_metrics`:
`property_data.get('gross_rent_annual', 60000) / 60000`. -/
def rentMultiplier (property_data : PDict) : ℚ :=
  dget property_data "gross_rent_annual" 60000 / 60000

/-- Embeds `BacktestEngine._calculate_scenario_metrics`: recompute the base
metrics for the modified property, then scale `monthly_cash_flow` and
`net_cash_flow` by the rent multiplier.  When the base metrics are the
"no transactions" marker dict, `adjusted_metrics['monthly_cash_flow'] *=
rent_multiplier` subscripts a missing key and raises
KeyError('monthly_cash_flow'). -/
def calculate_scenario_metrics (property_data : PDict)
    (transactions : List Transaction) : Except String BaseResults :=
  match calculate_base_metrics property_data transactions with
  | .err _ => .error "KeyError: monthly_cash_flow"
  | .stats s =>
      let mult := rentMultiplier property_data
      .ok (.stats ⟨s.total_income, s.total_expenses, s.net_cash_flow * mult,
        s.monthly_income, s.monthly_expenses, s.monthly_cash_flow * mult,
        s.occupancy_rate, s.transaction_count, s.period_months⟩)

/-- The `for scenario in scenarios` loop of `_run_scenario_analysis`,
threading the caller's property dict as explicit state.  Every write of
the loop body goes to `modified_property = property_data.copy()`; the
state component of the result is the final state of the caller's dict. -/
def runScenarioLoop (property_data : PDict) (transactions : List Transaction) :
    List Scenario → (Except String (List (String × BaseResults))) × PDict
  | [] => (.ok [], property_data)
  | sc :: rest =>
      let scenario_name := sc.name.getD "Unnamed Scenario"
      let modified_property := applyParams property_data sc.parameters
      match calculate_scenario_metrics modified_property transactions with
      | .error e => (.error e, property_data)
      | .ok m =>
          match runScenarioLoop property_data transactions rest with
          | (.error e, st) => (.error e, st)
          | (.ok ms, st) => (.ok ((scenario_name, m) :: ms), st)

/-- Embeds `BacktestEngine._run_scenario_analysis`. -/
def run_scenario_analysis (property_data : PDict) (transactions : List Transaction)
    (scenarios : List Scenario) :
    (Except String (List (String × BaseResults))) × PDict :=
  runScenarioLoop property_data transactions scenarios

/-- Month bucket of a date, for `df.groupby(..dt.to_period('M'))`. -/
def monthIndex (d : Date) : ℤ := d.y * 12 + (d.m - 1)

/-- The distinct month buckets of a transaction list in chronological
order (pandas `groupby` sorts its group keys). -/
def monthKeys (transactions : List Transaction) : List ℤ :=
  ((transactions.map fun t => monthIndex t.transaction_date).dedup).mergeSort (· ≤ ·)

/-- The monthly cash-flow series: per calendar month, the sum of the
amounts of that month's transactions. -/
def monthlySums (transactions : List Transaction) : List ℚ :=
  (monthKeys transactions).map fun k =>
    ((transactions.filter fun t => monthIndex t.transaction_date = k).map (·.amount)).sum

/-- Embeds `cumulative_returns = monthly_cash_flows.cumsum()`. -/
def cumSumsFrom (acc : ℚ) : List ℚ → List ℚ
  | [] => []
  | x :: xs => (acc + x) :: cumSumsFrom (acc + x) xs

/-- Embeds `drawdown = cumulative_returns - cumulative_returns.expanding().max()`,
with the running maximum threaded through. -/
def drawdownsFrom (m : ℚ) : List ℚ → List ℚ
  | [] => []
  | c :: cs => (c - max m c) :: drawdownsFrom (max m c) cs

/-- Smallest element of a rational list (0 for the empty list, which the
caller excludes). -/
def listMinQ : List ℚ → ℚ
  | [] => 0
  | x :: xs => xs.foldl min x

/-- Embeds `max_drawdown = drawdown.min()` over the cumulative series. -/
def maxDrawdown (monthly : List ℚ) : ℚ :=
  match cumSumsFrom 0 monthly with
  | [] => 0
  | c :: cs => listMinQ (drawdownsFrom c (c :: cs))

/-- The dict `_calculate_performance_metrics` returns for a non-empty
transaction list.  `return_volatility` is pandas' sample standard
deviation (ddof = 1): the square root of `variance` when at least two
months are present and `NaN` (modelled as `none`) for a single month;
the square root itself is a float and is carried here as its radicand.
`sharpe_ratio` is `(mean - 0.02/12) / volatility` when the volatility is
positive and `0` otherwise; the two threshold comparisons the insight
rules make against it (and the one against the volatility) are
precomputed exactly as Booleans by comparing squares, which coincides
with comparing the real square root (the source rounds the float before
comparing; that rounding of an irrational is not modelled). -/
structure PerfMetrics where
  total_return : ℚ
  average_monthly_return : ℚ
  variance : Option ℚ
  sharpe_gt_one : Bool
  sharpe_lt_zero : Bool
  volatility_gt_2000 : Bool
  max_drawdown : ℚ
  months_analyzed : ℕ
deriving DecidableEq

/-- Embeds `BacktestEngine._calculate_performance_metrics`: `{}` (here `none`)
for an empty transaction list, otherwise the monthly-series statistics. -/
def calculate_performance_metrics (transactions : List Transaction)
    (_property_data : PDict) : Option PerfMetrics :=
  match transactions with
  | [] => none
  | t0 :: rest =>
      let df := t0 :: rest
      let total_return := (df.map (·.amount)).sum
      let monthly := monthlySums df
      let n := monthly.length
      let avg := monthly.sum / (n : ℚ)
      let excess := avg - 1/600
      let variance : Option ℚ :=
        if 2 ≤ n then
          some (((monthly.map fun x => (x - avg) ^ 2).sum) / ((n : ℚ) - 1))
        else none
      let gt1 :=
        match variance with
        | some v => decide (0 < v) && (decide (0 < excess) && decide (v < excess ^ 2))
        | none => false
      let lt0 :=
        match variance with
        | some v => decide (0 < v) && decide (excess < 0)
        | none => false
      let vol2000 :=
        match variance with
        | some v => decide ((2000 : ℚ) ^ 2 < v)
        | none => false
      some ⟨pyRound total_return 2, pyRound avg 2, variance, gt1, lt0, vol2000,
        pyRound (maxDrawdown monthly) 2, n⟩

/-- Embeds `performance_metrics.get('max_drawdown', 0)` (the empty dict of the
no-transactions case yields the default). -/
def perfMaxDrawdown (p : Option PerfMetrics) : ℚ :=
  (p.map (·.max_drawdown)).getD 0

/-- First maximal element by `x[1].get('monthly_cash_flow', 0)`, as
Python's `max(items, key=...)` picks it. -/
def argmaxByMcf : List (String × BaseResults) → Option (String × BaseResults)
  | [] => none
  | x :: xs =>
      some (xs.foldl
        (fun best c =>
          if baseGet c.2 "monthly_cash_flow" 0 > baseGet best.2 "monthly_cash_flow" 0
          then c else best) x)

/-- First minimal element by the same key, as `min(items, key=...)`. -/
def argminByMcf : List (String × BaseResults) → Option (String × BaseResults)
  | [] => none
  | x :: xs =>
      some (xs.foldl
        (fun worst c =>
          if baseGet c.2 "monthly_cash_flow" 0 < baseGet worst.2 "monthly_cash_flow" 0
          then c else worst) x)

/-- The categorized insight lists (`{'summary': [...], 'recommendations':
[...], 'risks': [...], 'opportunities': [...]}`). -/
structure Insights where
  summary : List String
  recommendations : List String
  risks : List String
  opportunities : List String
deriving DecidableEq

/-- Embeds `BacktestEngine._generate_insights`: the deterministic threshold
rules, each appending at most one string per list, in source order. -/
def generate_insights (base_results : BaseResults)
    (performance_metrics : Option PerfMetrics)
    (scenario_results : List (String × BaseResults)) : Insights :=
  let mcf := baseGet base_results "monthly_cash_flow" 0
  let occ := baseGet base_results "occupancy_rate" 0
  let sharpeGt1 := (performance_metrics.map (·.sharpe_gt_one)).getD false
  let sharpeLt0 := (performance_metrics.map (·.sharpe_lt_zero)).getD false
  let vol2000 := (performance_metrics.map (·.volatility_gt_2000)).getD false
  let summary :=
    (if mcf > 0 then
      ["Property generated positive cash flow during the analysis period"] else []) ++
    (if occ > 9/10 then ["High occupancy rate achieved"] else []) ++
    (if sharpeGt1 then ["Good risk-adjusted returns"] else [])
  let risks :=
    (if mcf > 0 then []
     else ["Property had negative cash flow during the analysis period"]) ++
    (if occ > 9/10 then []
     else if occ < 8/10 then
       ["Low occupancy rate may indicate market or management issues"]
     else []) ++
    (if sharpeGt1 then []
     else if sharpeLt0 then ["Poor risk-adjusted returns"] else []) ++
    (if perfMaxDrawdown performance_metrics < -10000 then
      ["Significant cash flow volatility observed"] else []) ++
    (match argminByMcf scenario_results with
     | some worst => ["Worst performing scenario: " ++ worst.1]
     | none => [])
  let opportunities :=
    match argmaxByMcf scenario_results with
    | some best => ["Best performing scenario: " ++ best.1]
    | none => []
  let recommendations :=
    (if occ < 85/100 then
      ["Consider improving property management to increase occupancy"] else []) ++
    (if baseGet base_results "monthly_expenses" 0 >
        baseGet base_results "monthly_income" 0 * (1/2) then
      ["Review operating expenses - they may be too high relative to income"] else []) ++
    (if vol2000 then ["Consider strategies to stabilize cash flow"] else [])
  ⟨summary, recommendations, risks, opportunities⟩

/-- The dict `run_backtest` returns: base results, per-scenario results,
performance metrics, insights and the `period` sub-dict (start, end,
`(end_dt - start_dt).days`). -/
structure BacktestResult where
  base_results : BaseResults
  scenario_results : List (String × BaseResults)
  performance_metrics : Option PerfMetrics
  insights : Insights
  period_start : Date
  period_end : Date
  duration_days : ℤ
deriving DecidableEq

/-- Embeds `BacktestEngine.run_backtest(property_data, transactions, start_date,
end_date, scenarios=None)`.  The `try/except` of the source logs and
re-raises, so an exception inside (the scenario KeyError) propagates
unchanged - modelled by the `Except` error.  `if scenarios:` is a
truthiness test, so both `None` and an empty list skip the scenario
analysis. -/
def run_backtest (property_data : PDict) (transactions : List Transaction)
    (start_date end_date : Date) (scenarios : Option (List Scenario)) :
    Except String BacktestResult :=
  let filtered := filter_transactions_by_date transactions start_date end_date
  let base_results := calculate_base_metrics property_data filtered
  let scen : Except String (List (String × BaseResults)) :=
    match scenarios with
    | none => .ok []
    | some [] => .ok []
    | some (s :: ss) => (run_scenario_analysis property_data filtered (s :: ss)).1
  match scen with
  | .error e => .error e
  | .ok scenario_results =>
      let performance_metrics := calculate_performance_metrics filtered property_data
      let insights := generate_insights base_results performance_metrics scenario_results
      .ok ⟨base_results, scenario_results, performance_metrics, insights,
        start_date, end_date, daysBetween start_date end_date⟩

end Backtest

/- ------------------------------------------------------------------ -/
/- Helper lemmas shared by the claim theorems.                         -/
/- ------------------------------------------------------------------ -/

/-- At a zero discount rate every term of the NPV generator sum is the
raw cash flow, regardless of the running index. -/
theorem npvAux_zero (t : ℕ) (l : List ℚ) : npvAux 0 t l = l.sum := by
  induction l generalizing t with
  | nil => simp [npvAux]
  | cons cf rest ih => simp [npvAux, ih]

/-- Adding the terminal value onto the last entry keeps the length of
the cash-flow series. -/
theorem addToLast_length (x : ℚ) : ∀ l : List ℚ, (addToLast x l).length = l.length
  | [] => rfl
  | [_] => rfl
  | a :: b :: rest => by
      simpa [addToLast] using addToLast_length x (b :: rest)

/-- The cash-on-cash note of `ROIEngine.interpret_results` on a finite
(non-NaN) cash-on-cash value is one of the two target-comparison notes,
so the "could not be calculated" note never appears in its output. -/
theorem calc_interpret_no_cocNan (cap : ℚ) (c : ℚ) (d : DscrVal) (refs : LocalRefs) :
    Note.cocNotCalculated ∉ RoiCalc.interpret_results cap (.fin c) d refs := by
  simp only [RoiCalc.interpret_results, List.mem_cons, List.not_mem_nil, or_false]
  split_ifs <;> simp

/-- Same statement for the module-level `interpret_results` of
backend/roi_engine.py. -/
theorem py_interpret_no_cocNan (cap : ℚ) (c : ℚ) (d : ℚ) (refs : LocalRefs) :
    Note.cocNotCalculated ∉ PyRoi.interpret_results cap (.fin c) d refs := by
  simp only [PyRoi.interpret_results, List.mem_cons, List.not_mem_nil, or_false]
  split_ifs <;> simp

/- ------------------------------------------------------------------ -/
/- Claim theorems.                                                     -/
/- ------------------------------------------------------------------ -/

/-- C8: for every cash-flow sequence, the `npv` of backend/roi_engine.py
and the `net_present_value_simple` of the ROI-calculator engine
evaluated at discount rate 0 are the plain sum of the sequence - the
index-0 entry is divided by `(1+0)^0 = 1` and every further factor is
also 1. -/
theorem c8_npv_zero_rate_is_sum (cash_flows : List ℚ) :
    PyRoi.npv cash_flows 0 = cash_flows.sum ∧
    RoiCalc.net_present_value_simple cash_flows 0 = cash_flows.sum :=
  ⟨npvAux_zero 0 cash_flows, npvAux_zero 0 cash_flows⟩

/-- When the analytic derivative at the current iterate is below the
1e-10 threshold, the Newton loop breaks and returns the current iterate
unchanged. -/
theorem irrLoop_deriv_abort (cash_flows : List ℚ) (initial_investment r : ℚ) (n : ℕ)
    (h : pyAbsQ (RoiCalc.nrDeriv r 1 cash_flows) < 1 / 10000000000) :
    RoiCalc.irrLoop cash_flows initial_investment (n + 1) r = r := by
  simp only [RoiCalc.irrLoop]
  rw [if_pos h]

/-- C3 (code bug): on the cash-flow input `[0]` with initial investment
100 the Newton-Raphson `ROIEngine.internal_rate_of_return` aborts on its
very first iteration (the analytic derivative is 0, below the 1e-10
threshold) without the convergence criterion ever holding - the NPV is
stuck at -100 - and returns the initial iterate 0.1, a plain number and
not the not-a-number sentinel the specification requires for
non-convergence.  (No branch of the source function can produce NaN;
its result is always the last iterate.) -/
theorem c3_newton_nonconvergence_returns_last_iterate :
    RoiCalc.internal_rate_of_return [0] 100 100 = 1 / 10 := by
  have hd : RoiCalc.nrDeriv (1 / 10) 1 [0] = 0 := by
    norm_num [RoiCalc.nrDeriv]
  unfold RoiCalc.internal_rate_of_return
  rw [if_neg (by simp)]
  exact irrLoop_deriv_abort [0] 100 (1 / 10) 99 (by rw [hd]; norm_num [pyAbsQ])

/-- C4 (code bug): `ROIEngine.compare_properties` on a non-empty list
raises `KeyError: 'metrics'` instead of returning the ranked comparison,
because each entry subscripts the dict computed by
`compute_roi_from_inputs` with the keys `'metrics'` and
`'interpretation'`, neither of which that dict carries.  Shown here on a
one-element property list. -/
theorem c4_compare_properties_keyerror :
    RoiCalc.compare_properties
        [[("purchase_price", 500000), ("gross_rent_annual", 60000)]] =
      Except.error "KeyError: metrics" := rfl

/-- The concrete input of the specification's DSCR scenario: NOI 42000
(rent 60000, vacancy 5%, expenses 15000) with a zero annual mortgage
payment. -/
def c1Inputs : PDict :=
  [("purchase_price", 500000), ("gross_rent_annual", 60000), ("vacancy_rate", 1/20),
   ("operating_expenses", 15000), ("annual_mortgage_payment", 0), ("equity", 100000)]

/-- C1 (code bug): on zero debt the module-level `dscr` of
backend/roi_engine.py returns 0.0 - not the infinite sentinel - and the
Interpreter consequently reports the "below lender minimum" note for the
default `dscr_min` of 1.2; the class method
`ROIEngine.debt_service_coverage_ratio` of the ROI-calculator engine
returns `float('inf')` on the same input and its pipeline reports
"adequate coverage", as the claim demands. -/
theorem c1_dscr_zero_debt_eval :
    PyRoi.dscr 42000 0 = 0 ∧
    Note.dscrBelowMin (.fin 0) (6/5) ∈ (PyRoi.compute_roi_from_inputs c1Inputs none).explanation ∧
    RoiCalc.debt_service_coverage_ratio 42000 0 = DscrVal.inf ∧
    Note.dscrAdequate .inf ∈ (RoiCalc.compute_roi_from_inputs c1Inputs none).explanation := by
  refine ⟨by simp [PyRoi.dscr], ?_, by simp [RoiCalc.debt_service_coverage_ratio], ?_⟩
  · simp only [PyRoi.compute_roi_from_inputs, PyRoi.interpret_results, PyRoi.dscr,
      PyRoi.cap_rate, PyRoi.noi, PyRoi.effective_gross_income, PyRoi.gross_yield,
      PyRoi.pre_tax_cash_flow, PyRoi.cash_on_cash, c1Inputs, dget,
      defaultLocalRefs, pyInt]
    simp
  · simp only [RoiCalc.compute_roi_from_inputs, RoiCalc.interpret_results,
      RoiCalc.debt_service_coverage_ratio, RoiCalc.cap_rate, RoiCalc.net_operating_income,
      RoiCalc.effective_gross_income, RoiCalc.gross_yield, RoiCalc.pre_tax_cash_flow,
      RoiCalc.cash_on_cash_return, c1Inputs, dget, defaultLocalRefs,
      pyInt, dscrLt]
    simp

/-- C10: the cash-on-cash value both `compute_roi_from_inputs`
implementations hand to their Interpreter is always a finite number (the
`equity == 0` guard yields 0, never NaN), so the "Cash-on-Cash could not
be calculated" note is unreachable through the orchestration pipeline,
for every input mapping and local-refs setting. -/
theorem c10_coc_never_nan (inputs : PDict) (local_refs : Option LocalRefs) :
    Note.cocNotCalculated ∉ (RoiCalc.compute_roi_from_inputs inputs local_refs).explanation ∧
    Note.cocNotCalculated ∉ (PyRoi.compute_roi_from_inputs inputs local_refs).explanation :=
  ⟨calc_interpret_no_cocNan _ _ _ _, py_interpret_no_cocNan _ _ _ _⟩

/-- C9 counterexample: the claim quantifies over all inputs with
`purchase_price > 0` and `vacancy_rate ∈ [0,1]` but not over the sign of
the rent; at `gross_rent_annual = -100`, `vacancy_rate = 1/2` (with any
positive purchase price, here 1) the effective gross income is -50,
violating both asserted bounds in both implementations. -/
theorem c9_counterexample :
    (0 : ℚ) < 1 ∧ ((0 : ℚ) ≤ 1/2 ∧ (1/2 : ℚ) ≤ 1) ∧
    ¬(0 ≤ RoiCalc.effective_gross_income (-100) (1/2) ∧
      RoiCalc.effective_gross_income (-100) (1/2) ≤ -100) ∧
    ¬(0 ≤ PyRoi.effective_gross_income (-100) (1/2) ∧
      PyRoi.effective_gross_income (-100) (1/2) ≤ -100) := by
  norm_num [RoiCalc.effective_gross_income, PyRoi.effective_gross_income]

/-- C9 as amended: with the additional (intended) hypothesis that the
gross rent is non-negative, both `effective_gross_income`
implementations satisfy `0 ≤ egi ≤ gross_rent_annual` whenever
`vacancy_rate ∈ [0,1]`. -/
theorem c9_amended (gross_rent_annual vacancy_rate : ℚ)
    (hg : 0 ≤ gross_rent_annual) (hv0 : 0 ≤ vacancy_rate) (hv1 : vacancy_rate ≤ 1) :
    (0 ≤ RoiCalc.effective_gross_income gross_rent_annual vacancy_rate ∧
      RoiCalc.effective_gross_income gross_rent_annual vacancy_rate ≤ gross_rent_annual) ∧
    (0 ≤ PyRoi.effective_gross_income gross_rent_annual vacancy_rate ∧
      PyRoi.effective_gross_income gross_rent_annual vacancy_rate ≤ gross_rent_annual) := by
  unfold RoiCalc.effective_gross_income PyRoi.effective_gross_income
  constructor <;> constructor <;> nlinarith

/-- Witness for `c9_amended` at rent 60000 and vacancy 5%. -/
theorem c9_witness :
    ((0 : ℚ) ≤ 60000 ∧ (0 : ℚ) ≤ 1/20 ∧ (1/20 : ℚ) ≤ 1) ∧
    ((0 ≤ RoiCalc.effective_gross_income 60000 (1/20) ∧
      RoiCalc.effective_gross_income 60000 (1/20) ≤ 60000) ∧
     (0 ≤ PyRoi.effective_gross_income 60000 (1/20) ∧
      PyRoi.effective_gross_income 60000 (1/20) ≤ 60000)) :=
  ⟨by norm_num,
   c9_amended 60000 (1/20) (by norm_num) (by norm_num) (by norm_num)⟩

/-- The specification's concrete scenario inputs with `hold_years = 0`. -/
def c2Inputs : PDict :=
  [("purchase_price", 500000), ("gross_rent_annual", 60000), ("vacancy_rate", 1/20),
   ("operating_expenses", 15000), ("annual_mortgage_payment", 30000), ("equity", 100000),
   ("hold_years", 0)]

/-- C2 counterexample: neither `compute_roi_from_inputs` implementation
validates `hold_years`.  On the concrete scenario inputs with
`hold_years = 0` the backend function returns (rather than rejecting) a
result whose cash-flow series is the single entry
`-equity + terminal_value = -100000 + 8400000/11 = 7300000/11` - a
series with no forward period - and the ROI-calculator engine likewise
returns a length-1 series. -/
theorem c2_counterexample :
    (PyRoi.compute_roi_from_inputs c2Inputs none).cash_flows = [7300000/11] ∧
    (RoiCalc.compute_roi_from_inputs c2Inputs none).cash_flows.length = 1 := by
  constructor
  · simp only [PyRoi.compute_roi_from_inputs, c2Inputs, dget, PyRoi.effective_gross_income,
      PyRoi.noi, PyRoi.pre_tax_cash_flow, pyInt, defaultLocalRefs, addToLast]
    simp
    norm_num [addToLast]
  · simp only [RoiCalc.compute_roi_from_inputs, c2Inputs, dget, pyInt, defaultLocalRefs]
    simp [addToLast_length]

/-- C2 as amended: with `hold_years = 0` both `compute_roi_from_inputs`
implementations return normally and the returned cash-flow series has
length 1 (`hold_years + 1`), i.e. only the initial-outflow entry with
the terminal value folded in - there is no InvalidInput rejection. -/
theorem c2_amended (inputs : PDict) (local_refs : Option LocalRefs)
    (h : pyInt (dget inputs "hold_years" 5) = 0) :
    (PyRoi.compute_roi_from_inputs inputs local_refs).cash_flows.length = 1 ∧
    (RoiCalc.compute_roi_from_inputs inputs local_refs).cash_flows.length = 1 := by
  constructor
  · simp [PyRoi.compute_roi_from_inputs, h, addToLast_length]
  · simp [RoiCalc.compute_roi_from_inputs, h, addToLast_length]

/-- Witness for `c2_amended` at the concrete `hold_years = 0` scenario. -/
theorem c2_witness :
    pyInt (dget c2Inputs "hold_years" 5) = 0 ∧
    ((PyRoi.compute_roi_from_inputs c2Inputs none).cash_flows.length = 1 ∧
     (RoiCalc.compute_roi_from_inputs c2Inputs none).cash_flows.length = 1) :=
  ⟨by simp [c2Inputs, dget, pyInt],
   c2_amended c2Inputs none (by simp [c2Inputs, dget, pyInt])⟩

/-- Inputs (NOI 42000) for the terminal-value counterexample. -/
def c6Inputs : PDict :=
  [("purchase_price", 500000), ("gross_rent_annual", 60000), ("vacancy_rate", 1/20),
   ("operating_expenses", 15000)]

/-- Local refs whose cap band midpoint is exactly 0. -/
def c6Refs : LocalRefs := ⟨-1/50, 1/50, 8/100, 6/5, 1/10⟩

/-- C6 counterexample: in `compute_roi_from_inputs` of
backend/roi_engine.py the cap-band midpoint `(-0.02 + 0.02)/2 = 0` is
replaced by 0.05 through `... / 2 or 0.05`, and the terminal value
becomes `NOI / 0.05 = 840000` instead of the 0 the claim requires for a
non-positive midpoint. -/
theorem c6_counterexample :
    (c6Refs.cap_low + c6Refs.cap_high) / 2 ≤ 0 ∧
    (PyRoi.compute_roi_from_inputs c6Inputs (some c6Refs)).terminal_value ≠ 0 := by
  constructor
  · norm_num [c6Refs]
  · simp only [PyRoi.compute_roi_from_inputs, c6Inputs, c6Refs, dget,
      PyRoi.effective_gross_income, PyRoi.noi, pyInt]
    simp
    norm_num

/-- C6 as amended: the ROI-calculator engine's
`compute_roi_from_inputs` satisfies the claim in full - its terminal cap
is the midpoint of the local cap band and the terminal value is
`NOI / midpoint` for a positive midpoint and 0 otherwise; the
backend/roi_engine.py duplicate agrees only on positive midpoints (a
zero midpoint is silently replaced by 0.05 and a negative one is used as
a divisor). -/
theorem c6_amended (inputs : PDict) (refs : LocalRefs) :
    ((RoiCalc.compute_roi_from_inputs inputs (some refs)).terminal_value =
      if (refs.cap_low + refs.cap_high) / 2 > 0 then
        RoiCalc.net_operating_income
            (RoiCalc.effective_gross_income (dget inputs "gross_rent_annual" 0)
              (dget inputs "vacancy_rate" (1/10)))
            (dget inputs "operating_expenses" 0) /
          ((refs.cap_low + refs.cap_high) / 2)
      else 0) ∧
    ((refs.cap_low + refs.cap_high) / 2 > 0 →
      (PyRoi.compute_roi_from_inputs inputs (some refs)).terminal_value =
        PyRoi.noi
            (PyRoi.effective_gross_income (dget inputs "gross_rent_annual" 0)
              (dget inputs "vacancy_rate" (1/10)))
            (dget inputs "operating_expenses" 0) /
          ((refs.cap_low + refs.cap_high) / 2)) := by
  constructor
  · rfl
  · intro h
    have hne : (refs.cap_low + refs.cap_high) / 2 ≠ 0 := ne_of_gt h
    simp [PyRoi.compute_roi_from_inputs, hne]

/-- Witness for `c6_amended`'s positive-midpoint branch at the default
local refs (midpoint 0.055). -/
theorem c6_witness :
    (defaultLocalRefs.cap_low + defaultLocalRefs.cap_high) / 2 > 0 ∧
    (PyRoi.compute_roi_from_inputs c6Inputs (some defaultLocalRefs)).terminal_value =
      PyRoi.noi
          (PyRoi.effective_gross_income (dget c6Inputs "gross_rent_annual" 0)
            (dget c6Inputs "vacancy_rate" (1/10)))
          (dget c6Inputs "operating_expenses" 0) /
        ((defaultLocalRefs.cap_low + defaultLocalRefs.cap_high) / 2) :=
  ⟨by norm_num [defaultLocalRefs],
   (c6_amended c6Inputs defaultLocalRefs).2 (by norm_num [defaultLocalRefs])⟩

/-- C5 counterexample: with a scenario list supplied and every
transaction outside the window (a 2023 transaction against a 2024
window), `run_backtest` does not return the marker result - the
scenario-metric adjustment subscripts the marker dict's missing
`'monthly_cash_flow'` key and the call raises KeyError. -/
theorem c5_counterexample :
    Backtest.run_backtest [("gross_rent_annual", 60000)]
        [⟨⟨2023, 1, 15⟩, "rent", 5000⟩] ⟨2024, 1, 1⟩ ⟨2024, 12, 31⟩
        (some [⟨some "Optimistic", [("gross_rent_annual", Backtest.ScenVal.pct 10)]⟩]) =
      Except.error "KeyError: monthly_cash_flow" := rfl

/-- C5 as amended: when no scenario list is supplied and every
transaction falls outside the window, `run_backtest` returns normally; 
its `base_results` is exactly the `{"error": "No transactions found for
the specified period"}` marker dict (it carries no zeroed aggregate
fields - the aggregate keys are simply absent), `performance_metrics` is
the empty dict and the insights are the fixed lists produced by the
zero defaults.  (With a non-empty scenario list the same inputs raise
KeyError instead, per the counterexample.) -/
theorem c5_amended (property_data : PDict) (transactions : List Backtest.Transaction)
    (start_date end_date : Backtest.Date)
    (h : ∀ t ∈ transactions,
      ¬(Backtest.dateLe start_date t.transaction_date = true ∧
        Backtest.dateLe t.transaction_date end_date = true)) :
    Backtest.run_backtest property_data transactions start_date end_date none =
      Except.ok ⟨Backtest.BaseResults.err "No transactions found for the specified period",
        [], none,
        ⟨[], ["Consider improving property management to increase occupancy"],
         ["Property had negative cash flow during the analysis period",
          "Low occupancy rate may indicate market or management issues"], []⟩,
        start_date, end_date, Backtest.daysBetween start_date end_date⟩ := by
  have hf : Backtest.filter_transactions_by_date transactions start_date end_date = [] := by
    rw [Backtest.filter_transactions_by_date, List.filter_eq_nil_iff]
    intro t ht
    have := h t ht
    simp only [Bool.and_eq_true] at *
    exact this
  have hb : Backtest.calculate_base_metrics property_data [] =
      .err "No transactions found for the specified period" := rfl
  have hp : Backtest.calculate_performance_metrics [] property_data = none := rfl
  have hi : Backtest.generate_insights
      (.err "No transactions found for the specified period") none [] =
      ⟨[], ["Consider improving property management to increase occupancy"],
       ["Property had negative cash flow during the analysis period",
        "Low occupancy rate may indicate market or management issues"], []⟩ := by
    simp [Backtest.generate_insights, Backtest.baseGet, Backtest.perfMaxDrawdown,
      Backtest.argmaxByMcf, Backtest.argminByMcf]
    norm_num
  simp only [Backtest.run_backtest, hf, hb, hp, hi]

/-- Witness for `c5_amended` at the concrete out-of-range instance of
the counterexample (without scenarios). -/
theorem c5_witness :
    (∀ t ∈ [(⟨⟨2023, 1, 15⟩, "rent", 5000⟩ : Backtest.Transaction)],
      ¬(Backtest.dateLe ⟨2024, 1, 1⟩ t.transaction_date = true ∧
        Backtest.dateLe t.transaction_date ⟨2024, 12, 31⟩ = true)) ∧
    Backtest.run_backtest [("gross_rent_annual", 60000)]
        [⟨⟨2023, 1, 15⟩, "rent", 5000⟩] ⟨2024, 1, 1⟩ ⟨2024, 12, 31⟩ none =
      Except.ok ⟨Backtest.BaseResults.err "No transactions found for the specified period",
        [], none,
        ⟨[], ["Consider improving property management to increase occupancy"],
         ["Property had negative cash flow during the analysis period",
          "Low occupancy rate may indicate market or management issues"], []⟩,
        ⟨2024, 1, 1⟩, ⟨2024, 12, 31⟩,
        Backtest.daysBetween ⟨2024, 1, 1⟩ ⟨2024, 12, 31⟩⟩ :=
  ⟨by decide,
   c5_amended [("gross_rent_annual", 60000)] [⟨⟨2023, 1, 15⟩, "rent", 5000⟩]
     ⟨2024, 1, 1⟩ ⟨2024, 12, 31⟩ (by decide)⟩

/-- The scenario loop returns the caller's property dict unchanged:
every write inside the body targets the per-scenario copy. -/
theorem runScenarioLoop_state (p : PDict) (txs : List Backtest.Transaction) :
    ∀ scens : List Backtest.Scenario, (Backtest.runScenarioLoop p txs scens).2 = p
  | [] => rfl
  | sc :: rest => by
      have ih := runScenarioLoop_state p txs rest
      simp only [Backtest.runScenarioLoop]
      cases hm : Backtest.calculate_scenario_metrics
          (Backtest.applyParams p sc.parameters) txs with
      | error e => simp [hm]
      | ok m =>
          cases hr : Backtest.runScenarioLoop p txs rest with
          | mk res st =>
              rw [hr] at ih
              simp only [Prod.snd] at ih
              cases res <;> simp [hm, hr, ih]

/-- The per-value sensitivity loop returns the caller's base dict
unchanged (the candidate value is written into `test_inputs =
base_inputs.copy()` only; the loop in fact errors out on its first
iteration at the `roi_result['metrics']` subscript). -/
theorem sensValuesLoop_state (st : PDict) (var : String) :
    ∀ values : List ℚ, (RoiCalc.sensValuesLoop st var values).2 = st
  | [] => rfl
  | _ :: _ => rfl

/-- The per-variable sensitivity loop likewise returns the base dict it
was given. -/
theorem sensVarsLoop_state (st : PDict) :
    ∀ ranges : List (String × List ℚ), (RoiCalc.sensVarsLoop st ranges).2 = st
  | [] => rfl
  | (var, values) :: rest => by
      have h0 := sensValuesLoop_state st var values
      simp only [RoiCalc.sensVarsLoop]
      cases hv : RoiCalc.sensValuesLoop st var values with
      | mk r s' =>
          rw [hv] at h0
          simp only [Prod.snd] at h0
          subst h0
          cases r with
          | error e => simp [hv]
          | ok rows =>
              have ih := sensVarsLoop_state s' rest
              cases hr : RoiCalc.sensVarsLoop s' rest with
              | mk r2 s'' =>
                  rw [hr] at ih
                  simp only [Prod.snd] at ih
                  cases r2 <;> simp [hv, hr, ih]

/-- C7: neither a backtest scenario run nor a sensitivity-analysis sweep
mutates the caller-supplied base mapping - both engines thread the
caller's dict through unchanged (each scenario / candidate value is
applied to a fresh copy), so the final state of the dict equals its
initial state for every input. -/
theorem c7_no_mutation (prop : PDict) (txs : List Backtest.Transaction)
    (scenarios : List Backtest.Scenario) (base_inputs : PDict)
    (variable_ranges : List (String × List ℚ)) :
    (Backtest.run_scenario_analysis prop txs scenarios).2 = prop ∧
    (RoiCalc.sensitivity_analysis base_inputs variable_ranges).2 = base_inputs := by
  constructor
  · exact runScenarioLoop_state prop txs scenarios
  · unfold RoiCalc.sensitivity_analysis
    cases hv : RoiCalc.sensVarsLoop base_inputs variable_ranges with
    | mk r s' =>
        have hs' : s' = base_inputs := by
          have h0 := sensVarsLoop_state base_inputs variable_ranges
          rw [hv] at h0
          exact h0
        cases r <;> simp [hs']
